import Mathlib

/-!
# Verification of the Service Bus message-receiver core

Shallow embedding of `src/lib/core/messageReceiver.ts` and
`src/lib/clientEntityContext.ts` (the Azure Service Bus client receiver
core), together with proofs of the specification's claims about it.

Conventions:
* JavaScript `Map<number, V>` becomes an association list `List (Nat × V)`
  with `Map.set` / `Map.delete` / `Map.get` / `Map.has` semantics.
* `setTimeout` / `clearTimeout` become explicit timer identifiers in an
  `activeTimers` list; a timer callback runs only if its id is still active.
* Promise resolution/rejection becomes an append-only log of
  `(promiseId, outcome)` pairs, so "settled exactly once" is a property of
  the control logic, not of JavaScript promise semantics.
* Errors already translated by `@azure/amqp-common`'s `translate` are
  modelled as `SBError` (name + retryable flag); raw AMQP errors as
  `AmqpErrorM` (optional condition/description, an `Option` field being
  `none` when the JavaScript value is absent or falsy).
-/

/-- A raw AMQP error as carried in a delivery's remote state or in
disposition options: optional condition and description strings
(`none` models a JavaScript absent/falsy field). -/
structure AmqpErrorM where
  condition : Option String
  description : Option String
deriving DecidableEq, Repr

/-- A translated messaging error, as produced by `@azure/amqp-common`'s
`translate` (external to this repository): a stable error name and a
`retryable` flag. -/
structure SBError where
  name : String
  retryable : Bool
deriving DecidableEq, Repr

/-! ## Association-list model of `Map<number, V>` -/

/-- `Map.set`: insert or overwrite the binding for key `k`. -/
def mapSet (k : Nat) (v : α) : List (Nat × α) → List (Nat × α)
  | [] => [(k, v)]
  | (k', v') :: rest => if k' = k then (k, v) :: rest else (k', v') :: mapSet k v rest

/-- `Map.delete`: remove the binding for key `k` if present. -/
def mapDelete (k : Nat) : List (Nat × α) → List (Nat × α)
  | [] => []
  | (k', v') :: rest => if k' = k then mapDelete k rest else (k', v') :: mapDelete k rest

/-- `Map.get`: the value bound to `k`, if any. -/
def mapGet (k : Nat) : List (Nat × α) → Option α
  | [] => none
  | (k', v') :: rest => if k' = k then some v' else mapGet k rest

/-- `Map.has`. -/
def mapHas (k : Nat) (l : List (Nat × α)) : Bool :=
  (mapGet k l).isSome

/-! ## Settlement (disposition) machinery

Embeds `MessageReceiver.settleMessage` (messageReceiver.ts:548-584), the
`_onSettled` handler (messageReceiver.ts:231-256) and the disposition
timeout callback (messageReceiver.ts:554-560). -/

/-- A pending-settlement record: the entry stored in
`_deliveryDispositionMap` (`PromiseLike` in the source): the caller's
promise (its resolve/reject callbacks, identified here by `promiseId`)
and the timeout timer handle. -/
structure PendingRec where
  promiseId : Nat
  timerId : Nat
deriving DecidableEq, Repr

/-- How a settlement promise got settled. -/
inductive POutcome
  /-- `resolve()` was called. -/
  | resolved
  /-- `reject(translate(state.error))`: rejected because the settlement
  acknowledgement carried an error (translation is external). -/
  | rejectedAck (e : AmqpErrorM)
  /-- `reject(new Error(...))` for an unrecognized disposition kind. -/
  | rejectedInvalidOp
deriving DecidableEq, Repr

/-- A transport disposition frame, as issued by `delivery.accept()`,
`delivery.modified(params)` or `delivery.reject(error)`. -/
inductive Frame
  | accept
  | modified (undeliverableHere : Bool) (messageAnnotations : Option (List (String × String)))
  | rejectedFrame (error : AmqpErrorM)
deriving DecidableEq, Repr

/-- `DispositionOptions` from the source: optional property overrides and
an optional error payload for deadlettering. -/
structure DispositionOptions where
  propertiesToModify : Option (List (String × String))
  error : Option AmqpErrorM
deriving DecidableEq, Repr

/-- The settlement-related state of a `MessageReceiver`:
`_deliveryDispositionMap` keyed by delivery id, the set of live
`setTimeout` timers, the append-only log of promise settlements, and
fresh-id counters for promises and timers. -/
structure SettleState where
  dispositionMap : List (Nat × PendingRec)
  activeTimers : List Nat
  settledLog : List (Nat × POutcome)
  nextPromiseId : Nat
  nextTimerId : Nat
deriving DecidableEq, Repr

/-- The empty initial settlement state (fresh receiver). -/
def initSettleState : SettleState :=
  { dispositionMap := []
    activeTimers := []
    settledLog := []
    nextPromiseId := 0
    nextTimerId := 0 }

/-- The regex test `operation.match(/^(complete|abandon|defer|deadletter)$/)`
in settleMessage: anchored alternation, i.e. exact membership in the four
disposition kinds. -/
def recognizedOp (operation : String) : Bool :=
  operation = "complete" || operation = "abandon" ||
  operation = "defer" || operation = "deadletter"

/-- The disposition frames `settleMessage` issues for a recognized
operation (messageReceiver.ts:566-582): `complete → accept`;
`abandon → modified` with `undeliverable_here: false`; `defer → modified`
with `undeliverable_here: true` (both copying `propertiesToModify` into
`message_annotations` when present); `deadletter → reject` with
`options.error || {}`. -/
def framesFor (operation : String) (options : DispositionOptions) : List Frame :=
  if operation = "complete" then [Frame.accept]
  else if operation = "abandon" then [Frame.modified false options.propertiesToModify]
  else if operation = "defer" then [Frame.modified true options.propertiesToModify]
  else if operation = "deadletter" then [Frame.rejectedFrame (options.error.getD ⟨none, none⟩)]
  else []

/-- The result of one `settleMessage` call: the new receiver state, the
disposition frames issued, and the pending record registered (`none` when
the call rejected immediately for an unrecognized kind). -/
structure SettleCallResult where
  state : SettleState
  frames : List Frame
  registered : Option PendingRec
deriving DecidableEq, Repr

/-- `MessageReceiver.settleMessage(delivery, operation, options)`
(messageReceiver.ts:548-584). If the operation does not match
`/^(complete|abandon|defer|deadletter)$/` the new promise is rejected
immediately, before any timer, map entry or frame. Otherwise a timeout
timer is started, a pending record `{resolve, reject, timer}` is stored in
`_deliveryDispositionMap` under the delivery id (`Map.set`, overwriting
any previous record), and the disposition frame for the operation is
issued. -/
def settleMessage (s : SettleState) (deliveryId : Nat) (operation : String)
    (options : DispositionOptions) : SettleCallResult :=
  if recognizedOp operation then
    let rec0 : PendingRec := { promiseId := s.nextPromiseId, timerId := s.nextTimerId }
    { state :=
        { dispositionMap := mapSet deliveryId rec0 s.dispositionMap
          activeTimers := s.activeTimers ++ [s.nextTimerId]
          settledLog := s.settledLog
          nextPromiseId := s.nextPromiseId + 1
          nextTimerId := s.nextTimerId + 1 }
      frames := framesFor operation options
      registered := some rec0 }
  else
    { state := { s with
        settledLog := s.settledLog ++ [(s.nextPromiseId, POutcome.rejectedInvalidOp)]
        nextPromiseId := s.nextPromiseId + 1 }
      frames := []
      registered := none }

/-- How `_onSettled` settles the promise for an acknowledged delivery
(messageReceiver.ts:248-253): when the remote state carries an error with
a condition or a description
(`state && state.error && (state.error.condition || state.error.description)`),
the promise is rejected with the translated error, else resolved. -/
def ackOutcome (stateError : Option AmqpErrorM) : POutcome :=
  match stateError with
  | some e =>
    if e.condition.isSome || e.description.isSome then POutcome.rejectedAck e
    else POutcome.resolved
  | none => POutcome.resolved

/-- The `_onSettled` handler (messageReceiver.ts:231-256) for a delivery
event carrying `remote_settled` and `remote_state.error`. If the delivery
is remotely settled and has a record in `_deliveryDispositionMap`: clear
the record's timer, delete the record, then reject the promise with the
translated error when the remote state carries an error condition or
description, else resolve it. Otherwise do nothing. -/
def onSettled (s : SettleState) (deliveryId : Nat) (remoteSettled : Bool)
    (stateError : Option AmqpErrorM) : SettleState :=
  if remoteSettled then
    match mapGet deliveryId s.dispositionMap with
    | some rec0 =>
      { s with
        activeTimers := s.activeTimers.erase rec0.timerId
        dispositionMap := mapDelete deliveryId s.dispositionMap
        settledLog := s.settledLog ++ [(rec0.promiseId, ackOutcome stateError)] }
    | none => s
  else s

/-- The timeout callback installed by `settleMessage`
(messageReceiver.ts:554-560) for delivery `deliveryId` and record `rec0`
(the callback closes over that call's `delivery.id` and `resolve`). It
runs only if its timer has not been cleared; it then deletes the delivery
id from `_deliveryDispositionMap` and resolves that call's promise. -/
def dispositionTimerFire (s : SettleState) (deliveryId : Nat) (rec0 : PendingRec) :
    SettleState :=
  if rec0.timerId ∈ s.activeTimers then
    { s with
      activeTimers := s.activeTimers.erase rec0.timerId
      dispositionMap := mapDelete deliveryId s.dispositionMap
      settledLog := s.settledLog ++ [(rec0.promiseId, POutcome.resolved)] }
  else s

/-! ## Receiver configuration and link-detach protocol

Embeds the `ReceiveMode` / `ReceiverType` enums, the constructor defaults,
and `MessageReceiver.detached` (messageReceiver.ts:464-528). -/

/-- `ReceiveMode` (messageReceiver.ts:69-81). -/
inductive ReceiveMode
  | peekLock
  | receiveAndDelete
deriving DecidableEq, Repr

/-- `ReceiverType` (messageReceiver.ts:86-89). -/
inductive ReceiverType
  | batching
  | streaming
deriving DecidableEq, Repr

/-- The receiver configuration fields relevant to message handling, as
set in the `MessageReceiver` constructor (messageReceiver.ts:215-229):
`autoRenewLock` is the derived field
`maxAutoRenewDurationInSeconds > 0 && receiveMode === peekLock`. -/
structure ReceiverConfig where
  receiveMode : ReceiveMode
  autoComplete : Bool
  maxConcurrentCalls : Nat
  maxAutoRenewDurationInSeconds : Nat
  autoRenewLock : Bool
deriving DecidableEq, Repr

/-- Constructor defaults (messageReceiver.ts:220-229): mode defaults to
peek-lock, `maxConcurrentCalls` to 1, `autoComplete` to false,
`maxAutoRenewDurationInSeconds` to 300, and `autoRenewLock` is computed
from the other two fields. -/
def mkReceiverConfig (receiveMode : Option ReceiveMode) (autoComplete : Option Bool)
    (maxConcurrentCalls : Option Nat) (maxAutoRenewDurationInSeconds : Option Nat) :
    ReceiverConfig :=
  let mode := receiveMode.getD ReceiveMode.peekLock
  let renewDur := maxAutoRenewDurationInSeconds.getD 300
  { receiveMode := mode
    autoComplete := autoComplete.getD false
    maxConcurrentCalls := maxConcurrentCalls.getD 1
    maxAutoRenewDurationInSeconds := renewDur
    autoRenewLock := decide (renewDur > 0) && decide (mode = ReceiveMode.peekLock) }

/-- The reopen decision in `MessageReceiver.detached`
(messageReceiver.ts:474-500). `wasCloseInitiated` is
`this._receiver && this._receiver.isClosed()`; `receiverError` is the
error accompanying the closure, already translated (`translate` is
external and yields the `retryable` flag). `shouldReopen` starts false;
it becomes true when an error is present, close was not initiated and the
error is retryable, or when no error is present and close was not
initiated. -/
def shouldReopen (wasCloseInitiated : Bool) (receiverError : Option SBError) : Bool :=
  match receiverError, wasCloseInitiated with
  | some err, false => err.retryable
  | some _, true => false
  | none, wci => !wci

/-- The `ReceiverOptions` handed to `connection.createReceiver`, as built
by `_createReceiverOptions` (messageReceiver.ts:670-691); event-handler
fields are omitted (they are the receiver's own callbacks). -/
structure ReceiverOptionsM where
  name : String
  autoaccept : Bool
  rcvSettleMode : Nat
  sndSettleMode : Nat
  sourceAddress : String
  creditWindow : Nat
deriving DecidableEq, Repr

/-- `_createReceiverOptions` (messageReceiver.ts:670-691). When
`options.newName` is set, the receiver's name is first replaced by
`getUniqueName(entityPath)` — modelled by the `freshName` argument, since
`getUniqueName` (a GUID-based generator in `src/lib/util/utils`) is not
part of the embedded core. Settle modes: receiveAndDelete → rcv 0 / snd 1,
peekLock → rcv 1 / snd 0; credit window is `maxConcurrentCalls`. -/
def createReceiverOptions (cfg : ReceiverConfig) (currentName : String)
    (address : String) (freshName : String) (newName : Bool) : ReceiverOptionsM :=
  let name := if newName then freshName else currentName
  { name := name
    autoaccept := false
    rcvSettleMode := if cfg.receiveMode = ReceiveMode.receiveAndDelete then 0 else 1
    sndSettleMode := if cfg.receiveMode = ReceiveMode.receiveAndDelete then 1 else 0
    sourceAddress := address
    creditWindow := cfg.maxConcurrentCalls }

/-- `Constants.defaultConnectionRetryAttempts` from `@azure/amqp-common`
(external to this repository): a fixed, bounded attempt count. -/
def defaultConnectionRetryAttempts : Nat := 150

/-- The `RetryConfig` fields set by `detached` (messageReceiver.ts:515-521):
a bounded attempt count and a fixed delay of 15 seconds. -/
structure RetryConfigM where
  times : Nat
  delayInSeconds : Nat
deriving DecidableEq, Repr

/-- What the reopen branch of `MessageReceiver.detached`
(messageReceiver.ts:501-523) does when `shouldReopen` holds: build
receiver options with `newName: true` (so a fresh link name is generated
before re-establishment) and retry `_init` with the fixed retry
configuration. -/
def detachedReopenOptions (cfg : ReceiverConfig) (currentName : String)
    (address : String) (freshName : String) : ReceiverOptionsM :=
  createReceiverOptions cfg currentName address freshName true

/-- The retry configuration used by `detached` (messageReceiver.ts:515-521):
`times: Constants.defaultConnectionRetryAttempts`, `delayInSeconds: 15`. -/
def detachedRetryConfig : RetryConfigM :=
  { times := defaultConnectionRetryAttempts, delayInSeconds := 15 }

/-- Modelled from the spec: the Retry Orchestrator
(`retry` from `@azure/amqp-common`, §4.6 of the spec, not part of this
repository's sources): invoke the operation; on failure classify the
error as retryable or terminal; retry up to `maxAttempts` times separated
by the fixed delay, returning the result immediately on first success,
returning a terminal error immediately, and returning the final error if
all attempts are exhausted. The operation is modelled by the outcome of
each attempt (`none` = success, `some e` = failure with translated error
`e`); `attempt` indexes the current attempt. -/
def retryRun (op : Nat → Option SBError) (attempt : Nat) :
    (maxAttempts : Nat) → Except SBError Unit
  | 0 => Except.ok ()
  | Nat.succ remaining =>
    match op attempt with
    | none => Except.ok ()
    | some e =>
      if e.retryable ∧ remaining ≠ 0 then retryRun op (attempt + 1) remaining
      else Except.error e

/-! ## The `_onAmqpMessage` handler: lock renewal and post-handler actions

Embeds `MessageReceiver._onAmqpMessage` (messageReceiver.ts:258-355):
the auto-renew-lock task, the cancellation of renewal on handler
completion, and the auto-complete / abandon settlement that follows. -/

/-- `ConditionErrorNameMapper["com.microsoft:message-lock-lost"]` from
`@azure/amqp-common` (external): the translated name of a lock-lost
error. -/
def lockLostErrorName : String := "MessageLockLostError"

/-- Outcome of awaiting the application message handler
(`await this._onMessage(bMessage)`): success, or a thrown error whose
translated name is `errName`. -/
inductive HandlerOutcome
  | success
  | failure (errName : String)
deriving DecidableEq, Repr

/-- An observable action of `_onAmqpMessage` after (or at) handler
completion. -/
inductive MsgAction
  /-- `clearTimerAndStopExecution()`: stop the lock-renewal task. -/
  | cancelRenewal
  /-- `await bMessage.complete()`: issue a complete disposition. -/
  | settleComplete
  /-- `await bMessage.abandon()`: issue an abandon disposition. -/
  | settleAbandon
  /-- `this._onError(e)`: forward a translated error to the application
  error callback. -/
  | errorCallback (errName : String)
deriving DecidableEq, Repr

/-- The sequence of actions `_onAmqpMessage` performs once the handler
completes (messageReceiver.ts:316-355). In both branches
`clearTimerAndStopExecution()` runs first (it only does anything when
`autoRenewLock` is set). On success, if `autoComplete` is on and the mode
is peek-lock, a complete disposition is attempted, forwarding a
translated error to the error callback if it fails (`settleFailure`
carries the failure's translated name, `none` meaning the settlement
succeeds). On failure, if the translated error is not lock-lost and the
mode is peek-lock, an abandon disposition is attempted, forwarding a
translated error on failure; in all other cases the handler returns with
no further action. -/
def afterHandlerActions (cfg : ReceiverConfig) (outcome : HandlerOutcome)
    (settleFailure : Option String) : List MsgAction :=
  let cancel := if cfg.autoRenewLock then [MsgAction.cancelRenewal] else []
  match outcome with
  | HandlerOutcome.success =>
    cancel ++
      (if cfg.autoComplete ∧ cfg.receiveMode = ReceiveMode.peekLock then
        [MsgAction.settleComplete] ++
          (match settleFailure with
           | some e => [MsgAction.errorCallback e]
           | none => [])
      else [])
  | HandlerOutcome.failure errName =>
    cancel ++
      (if errName ≠ lockLostErrorName ∧ cfg.receiveMode = ReceiveMode.peekLock then
        [MsgAction.settleAbandon] ++
          (match settleFailure with
           | some e => [MsgAction.errorCallback e]
           | none => [])
      else [])

/-- Is the action a settlement disposition (complete or abandon)? -/
def isSettleAction : MsgAction → Bool
  | MsgAction.settleComplete => true
  | MsgAction.settleAbandon => true
  | _ => false

/-- Is the action a forward to the application error callback? -/
def isErrorCallbackAction : MsgAction → Bool
  | MsgAction.errorCallback _ => true
  | _ => false

/-! ### The lock-renewal task as a transition system

The recursive `autoRenewLockTask` (messageReceiver.ts:283-314) is a
self-rescheduling `setTimeout`. Its interleaving with the handler on the
single event loop is modelled by a state and events: the renewal timer
firing, the awaited `renewLock` management call completing (successfully
or not), and the handler completing. -/

/-- State of the per-message lock-renewal task. `contExec` is the
`continueExecution` flag; `timerSet` says a renewal `setTimeout` is
pending; `renewInFlight` says a `renewLock` management call is awaited;
`handlerDone` says `await this._onMessage(bMessage)` has completed
(successfully or not). -/
structure RenewState where
  contExec : Bool
  timerSet : Bool
  renewInFlight : Bool
  handlerDone : Bool
deriving DecidableEq, Repr

/-- Initial renewal state for a newly arrived message
(messageReceiver.ts:262-315): under `autoRenewLock`, `continueExecution`
is set and `autoRenewLockTask()` is called, which schedules the renewal
timer when `Date.now()` is still before the total auto-renew deadline
(the `beforeDeadline` argument); otherwise nothing is scheduled. -/
def initRenewState (cfg : ReceiverConfig) (beforeDeadline : Bool) : RenewState :=
  if cfg.autoRenewLock then
    { contExec := true, timerSet := beforeDeadline, renewInFlight := false,
      handlerDone := false }
  else
    { contExec := false, timerSet := false, renewInFlight := false, handlerDone := false }

/-- Event-loop events relevant to one message's renewal/handler race. -/
inductive REvent
  /-- The pending renewal `setTimeout` fires: `renewLock` is invoked. -/
  | timerFires
  /-- The awaited `renewLock` call completes: on success the task calls
  `autoRenewLockTask()` again, rescheduling when `continueExecution` still
  holds and the deadline has not passed; on failure the error is forwarded
  to the error callback and renewal stops. -/
  | renewResult (ok : Bool) (beforeDeadline : Bool)
  /-- `await this._onMessage(bMessage)` completes with `outcome`; the
  post-handler actions (renewal cancellation then settlement) run. -/
  | handlerCompletes (outcome : HandlerOutcome) (settleFailure : Option String)
deriving DecidableEq, Repr

/-- Observable actions of the renewal/handler transition system. -/
inductive RenewAction
  /-- `await this._context.managementClient.renewLock(bMessage)`: the
  out-of-band lock-renewal operation is invoked. -/
  | invokeRenewLock
  /-- `this._onError(err)` from the renewal task's catch block. -/
  | renewErrorForwarded
  /-- A post-handler action of `_onAmqpMessage`. -/
  | handlerAction (a : MsgAction)
deriving DecidableEq, Repr

/-- One event-loop step (messageReceiver.ts:283-355). A cleared timer
never fires (`clearTimeout` semantics), a `renewLock` completion without
a call in flight cannot happen, and the handler completes at most once;
such events are no-ops. -/
def rstep (cfg : ReceiverConfig) (s : RenewState) : REvent → RenewState × List RenewAction
  | REvent.timerFires =>
    if s.timerSet then
      ({ s with timerSet := false, renewInFlight := true }, [RenewAction.invokeRenewLock])
    else (s, [])
  | REvent.renewResult ok beforeDeadline =>
    if s.renewInFlight then
      if ok then
        ({ s with renewInFlight := false,
                  timerSet := s.contExec && beforeDeadline }, [])
      else
        ({ s with renewInFlight := false }, [RenewAction.renewErrorForwarded])
    else (s, [])
  | REvent.handlerCompletes outcome settleFailure =>
    if s.handlerDone then (s, [])
    else
      ({ s with handlerDone := true
                contExec := if cfg.autoRenewLock then false else s.contExec
                timerSet := if cfg.autoRenewLock then false else s.timerSet },
       (afterHandlerActions cfg outcome settleFailure).map RenewAction.handlerAction)

/-- Run a list of event-loop events, collecting all emitted actions. -/
def runRenew (cfg : ReceiverConfig) : RenewState → List REvent →
    RenewState × List RenewAction
  | s, [] => (s, [])
  | s, e :: rest =>
    let p := rstep cfg s e
    let q := runRenew cfg p.1 rest
    (q.1, p.2 ++ q.2)

/-! ## Entity Context: receiver registration and connection-failure recovery

Embeds the receiver cache slots of `ClientEntityContextBase`
(clientEntityContext.ts), the registration step of `MessageReceiver._init`
(messageReceiver.ts:644-651), `MessageReceiver._deleteFromCache`
(messageReceiver.ts:598-607), `MessageReceiver.close`
(messageReceiver.ts:534-540), and `ClientEntityContext.create`'s
`detached` (clientEntityContext.ts). -/

/-- A client entity (sender or receiver) as seen by the Entity Context:
its link name and its `isConnecting` guard flag. -/
structure EntityRef where
  name : String
  isConnecting : Bool
deriving DecidableEq, Repr

/-- The Entity Context slots relevant to registration and recovery:
at most one sender, one streaming receiver and one batching receiver. -/
structure EntityCache where
  sender : Option EntityRef
  streamingReceiver : Option EntityRef
  batchingReceiver : Option EntityRef
deriving DecidableEq, Repr

/-- The cache-registration step at the end of a successful `_init`
(messageReceiver.ts:644-651): a streaming receiver registers itself only
if the streaming slot is empty; else, a batching receiver registers
itself only if the batching slot is empty; otherwise nothing changes. -/
def registerInCache (c : EntityCache) (rtype : ReceiverType) (self : EntityRef) :
    EntityCache :=
  if rtype = ReceiverType.streaming ∧ c.streamingReceiver = none then
    { c with streamingReceiver := some self }
  else if rtype = ReceiverType.batching ∧ c.batchingReceiver = none then
    { c with batchingReceiver := some self }
  else c

/-- `MessageReceiver._deleteFromCache` (messageReceiver.ts:598-607),
restricted to its effect on the Entity Context slots: clear the slot for
the receiver's own type. -/
def deleteFromCache (c : EntityCache) (rtype : ReceiverType) : EntityCache :=
  if rtype = ReceiverType.streaming then { c with streamingReceiver := none }
  else if rtype = ReceiverType.batching then { c with batchingReceiver := none }
  else c

/-- The state of one `MessageReceiver` relevant to `close()`: its own
`_receiver` link handle (by name, `none` when never opened or already
closed), its type, its token-renewal timer, and the owning Entity
Context's slots. -/
structure MRState where
  receiver : Option String
  receiverType : ReceiverType
  tokenRenewalActive : Bool
  cache : EntityCache
deriving DecidableEq, Repr

/-- `MessageReceiver.close` (messageReceiver.ts:534-540): if an AMQP
receiver link exists, call `_deleteFromCache()` (which sets `_receiver`
to undefined and clears the receiver's own Entity Context slot) and then
`_closeLink` on the captured link. `_closeLink` lives in `LinkEntity`
(not among the embedded sources); modelled from the spec, §4.1 close
protocol: stop any pending token-renewal timer and close the link —
it never touches the Entity Context slots and never reconnects. When no
link exists, `close()` does nothing. -/
def closeReceiver (s : MRState) : MRState :=
  match s.receiver with
  | some _ =>
    { s with receiver := none
             cache := deleteFromCache s.cache s.receiverType
             tokenRenewalActive := false }
  | none => s

/-- A detach call issued by the Entity Context's recovery loop. -/
inductive DetachCall
  | senderDetached (name : String)
  | receiverDetached (name : String)
deriving DecidableEq, Repr

/-- `ClientEntityContext.create`'s `detached` (clientEntityContext.ts):
on a connection-level failure, call `detached` on the sender if present
and not connecting; then on the batching receiver if present and not
connecting; then on the variable named `streamingReceiver` — which the
source initialises as `const streamingReceiver = entityContext.batchingReceiver;`
— if present and not connecting. The returned list is the sequence of
`detached` calls actually issued. -/
def entityContextDetached (c : EntityCache) : List DetachCall :=
  (match c.sender with
   | some snd => if !snd.isConnecting then [DetachCall.senderDetached snd.name] else []
   | none => []) ++
  (match c.batchingReceiver with
   | some br => if !br.isConnecting then [DetachCall.receiverDetached br.name] else []
   | none => []) ++
  (match c.batchingReceiver with
   | some sr => if !sr.isConnecting then [DetachCall.receiverDetached sr.name] else []
   | none => [])

/-! ## Auxiliary predicates used in the statements -/

/-- The disposition map holds at most one record per delivery id:
its keys are pairwise distinct. -/
abbrev keysNodup (l : List (Nat × α)) : Prop := (l.map Prod.fst).Nodup

/-- `true` when a settlement disposition appears before the first
renewal-cancellation action in an action list (the order the claim about
renewal cancellation forbids). -/
def settleBeforeCancel (acts : List RenewAction) : Bool :=
  (acts.takeWhile (fun a => a ≠ RenewAction.handlerAction MsgAction.cancelRenewal)).any
    (fun a => match a with
      | RenewAction.handlerAction m => isSettleAction m
      | _ => false)

/-- Reachability invariant of the renewal system: once the handler has
completed, the `continueExecution` flag is down and no renewal timer is
pending. -/
def renewInv (s : RenewState) : Prop :=
  s.handlerDone = true → (s.contExec = false ∧ s.timerSet = false)

/-- The post-handler quiescent states: handler completed, renewal stopped. -/
def renewDone (s : RenewState) : Prop :=
  s.handlerDone = true ∧ s.contExec = false ∧ s.timerSet = false

/-! # Helper lemmas about the `Map` model -/

theorem mapGet_mapSet_self (k : Nat) (v : α) (l : List (Nat × α)) :
    mapGet k (mapSet k v l) = some v := by
  induction l with
  | nil => simp [mapSet, mapGet]
  | cons hd tl ih =>
    obtain ⟨k', v'⟩ := hd
    by_cases h : k' = k
    · simp [mapSet, mapGet, h]
    · simp [mapSet, mapGet, h, ih]

theorem mapGet_mapDelete_self (k : Nat) (l : List (Nat × α)) :
    mapGet k (mapDelete k l) = none := by
  induction l with
  | nil => simp [mapDelete, mapGet]
  | cons hd tl ih =>
    obtain ⟨k', v'⟩ := hd
    by_cases h : k' = k
    · simp [mapDelete, h, ih]
    · simp [mapDelete, mapGet, h, ih]

theorem mapDelete_mapSet_of_absent (k : Nat) (v : α) (l : List (Nat × α))
    (h : mapGet k l = none) : mapDelete k (mapSet k v l) = l := by
  induction l with
  | nil => simp [mapSet, mapDelete]
  | cons hd tl ih =>
    obtain ⟨k', v'⟩ := hd
    by_cases hk : k' = k
    · rw [mapGet] at h
      simp [hk] at h
    · rw [mapGet] at h
      simp [hk] at h
      simp [mapSet, mapDelete, hk, ih h]

theorem mapSet_keys (k : Nat) (v : α) (l : List (Nat × α)) :
    (mapSet k v l).map Prod.fst =
      if k ∈ l.map Prod.fst then l.map Prod.fst else l.map Prod.fst ++ [k] := by
  induction l with
  | nil => simp [mapSet]
  | cons hd tl ih =>
    obtain ⟨k', v'⟩ := hd
    by_cases h : k' = k
    · simp [mapSet, h]
    · have hne : ¬ k = k' := fun hk => h hk.symm
      by_cases hm : k ∈ tl.map Prod.fst <;>
        simp [mapSet, h, ih, hne, hm]

theorem mapDelete_keys (k : Nat) (l : List (Nat × α)) :
    (mapDelete k l).map Prod.fst =
      (l.map Prod.fst).filter (fun x => x ≠ k) := by
  induction l with
  | nil => simp [mapDelete]
  | cons hd tl ih =>
    obtain ⟨k', v'⟩ := hd
    by_cases h : k' = k
    · simp [mapDelete, h, ih]
    · simp [mapDelete, h, ih]

theorem keysNodup_mapSet (k : Nat) (v : α) (l : List (Nat × α))
    (h : keysNodup l) : keysNodup (mapSet k v l) := by
  unfold keysNodup at h ⊢
  rw [mapSet_keys]
  split
  · exact h
  · next hk =>
    rw [List.nodup_append]
    exact ⟨h, List.nodup_singleton k, by simpa using hk⟩

theorem keysNodup_mapDelete (k : Nat) (l : List (Nat × α))
    (h : keysNodup l) : keysNodup (mapDelete k l) := by
  unfold keysNodup at h ⊢
  rw [mapDelete_keys]
  exact h.filter _

/-! # Claim theorems -/

/-- C2: for every invocation of `MessageReceiver.detached`, reconnection
(re-establishment of the link) is attempted if and only if the closure
was not self-initiated and (no error accompanies the closure or the
accompanying error is retryable); in particular, a non-retryable error
with no self-initiated close results in no reconnection attempt. -/
theorem detached_reopens_iff (wasCloseInitiated : Bool)
    (receiverError : Option SBError) :
    shouldReopen wasCloseInitiated receiverError = true ↔
      (wasCloseInitiated = false ∧
        (receiverError = none ∨
          ∃ e, receiverError = some e ∧ e.retryable = true)) := by
  cases receiverError with
  | none => cases wasCloseInitiated <;> simp [shouldReopen]
  | some e => cases wasCloseInitiated <;> simp [shouldReopen]

/-- C7: a `settleMessage` call whose disposition kind is not one of
complete, abandon, defer, deadletter rejects immediately: no transport
disposition frame is issued, the disposition map and the set of live
timeout timers are unchanged, and the only thing that happens is the
immediate rejection of the caller's fresh promise. -/
theorem settleMessage_unrecognized_rejects (s : SettleState) (deliveryId : Nat)
    (operation : String) (options : DispositionOptions)
    (h : recognizedOp operation = false) :
    (settleMessage s deliveryId operation options).frames = [] ∧
    (settleMessage s deliveryId operation options).registered = none ∧
    (settleMessage s deliveryId operation options).state.dispositionMap =
      s.dispositionMap ∧
    (settleMessage s deliveryId operation options).state.activeTimers =
      s.activeTimers ∧
    (settleMessage s deliveryId operation options).state.settledLog =
      s.settledLog ++ [(s.nextPromiseId, POutcome.rejectedInvalidOp)] := by
  simp [settleMessage, h]

/-- Witness for C7 at the concrete operation "destroy" on the fresh
receiver state. -/
theorem settleMessage_unrecognized_rejects_witness :
    (settleMessage initSettleState 1 "destroy" ⟨none, none⟩).frames = [] ∧
    (settleMessage initSettleState 1 "destroy" ⟨none, none⟩).registered = none ∧
    (settleMessage initSettleState 1 "destroy" ⟨none, none⟩).state.dispositionMap =
      initSettleState.dispositionMap ∧
    (settleMessage initSettleState 1 "destroy" ⟨none, none⟩).state.activeTimers =
      initSettleState.activeTimers ∧
    (settleMessage initSettleState 1 "destroy" ⟨none, none⟩).state.settledLog =
      initSettleState.settledLog ++
        [(initSettleState.nextPromiseId, POutcome.rejectedInvalidOp)] :=
  settleMessage_unrecognized_rejects initSettleState 1 "destroy" ⟨none, none⟩ (by decide)

/-- C9: on successful establishment a receiver registers itself in the
Entity Context's slot for its role only when that slot is empty and never
replaces a live receiver of the same role (and never touches the other
role's slot or the sender); on close, `_deleteFromCache` clears only the
receiver's own role slot, leaving the other role's slot and the sender
unchanged. -/
theorem receiver_cache_registration (c : EntityCache) (rt : ReceiverType)
    (self : EntityRef) :
    (rt = ReceiverType.streaming → c.streamingReceiver = none →
      registerInCache c rt self = { c with streamingReceiver := some self }) ∧
    (rt = ReceiverType.streaming → c.streamingReceiver ≠ none →
      registerInCache c rt self = c) ∧
    (rt = ReceiverType.batching → c.batchingReceiver = none →
      registerInCache c rt self = { c with batchingReceiver := some self }) ∧
    (rt = ReceiverType.batching → c.batchingReceiver ≠ none →
      registerInCache c rt self = c) ∧
    (registerInCache c rt self).sender = c.sender ∧
    (rt = ReceiverType.streaming →
      (registerInCache c rt self).batchingReceiver = c.batchingReceiver) ∧
    (rt = ReceiverType.batching →
      (registerInCache c rt self).streamingReceiver = c.streamingReceiver) ∧
    (deleteFromCache c rt).sender = c.sender ∧
    (rt = ReceiverType.streaming →
      (deleteFromCache c rt).streamingReceiver = none ∧
      (deleteFromCache c rt).batchingReceiver = c.batchingReceiver) ∧
    (rt = ReceiverType.batching →
      (deleteFromCache c rt).batchingReceiver = none ∧
      (deleteFromCache c rt).streamingReceiver = c.streamingReceiver) := by
  cases rt <;>
    cases hs : c.streamingReceiver <;>
      cases hb : c.batchingReceiver <;>
        simp [registerInCache, deleteFromCache, hs, hb]

/-- Witness for C9: a streaming receiver registering into an empty cache,
and de-registration of a batching receiver leaving the streaming slot
alone, at concrete values. -/
theorem receiver_cache_registration_witness :
    registerInCache ⟨none, none, none⟩ ReceiverType.streaming ⟨"r1", false⟩ =
      { (⟨none, none, none⟩ : EntityCache) with
          streamingReceiver := some ⟨"r1", false⟩ } ∧
    (deleteFromCache ⟨none, some ⟨"r1", false⟩, some ⟨"r2", false⟩⟩
        ReceiverType.batching).batchingReceiver = none ∧
    (deleteFromCache ⟨none, some ⟨"r1", false⟩, some ⟨"r2", false⟩⟩
        ReceiverType.batching).streamingReceiver =
      (⟨none, some ⟨"r1", false⟩, some ⟨"r2", false⟩⟩ : EntityCache).streamingReceiver :=
  ⟨(receiver_cache_registration ⟨none, none, none⟩ ReceiverType.streaming
      ⟨"r1", false⟩).1 rfl rfl,
   (receiver_cache_registration ⟨none, some ⟨"r1", false⟩, some ⟨"r2", false⟩⟩
      ReceiverType.batching ⟨"r2", false⟩).2.2.2.2.2.2.2.2.2 rfl⟩

/-- C10: `close()` on a receiver with no underlying AMQP link is a
successful no-op, and `close()` is idempotent: closing twice leaves the
receiver and its Entity Context slots exactly as closing once. -/
theorem close_idempotent (s : MRState) :
    (s.receiver = none → closeReceiver s = s) ∧
    closeReceiver (closeReceiver s) = closeReceiver s := by
  constructor
  · intro h
    simp [closeReceiver, h]
  · cases hr : s.receiver <;> simp [closeReceiver, hr]

/-- Witness for C10 on a concrete never-opened receiver. -/
theorem close_idempotent_witness :
    closeReceiver
        { receiver := none, receiverType := ReceiverType.batching,
          tokenRenewalActive := false,
          cache := ⟨none, none, none⟩ } =
      { receiver := none, receiverType := ReceiverType.batching,
        tokenRenewalActive := false,
        cache := ⟨none, none, none⟩ } :=
  (close_idempotent
    { receiver := none, receiverType := ReceiverType.batching,
      tokenRenewalActive := false,
      cache := ⟨none, none, none⟩ }).1 rfl

/-- C5: evaluation of the Entity Context's `detached` at a state where a
sender, a streaming receiver and a batching receiver are all present and
none is connecting. The code calls `detached` on the batching receiver
twice (its third block reads `entityContext.batchingReceiver` into the
variable named `streamingReceiver`) and never on the streaming receiver,
although its comment and log speak of "the streaming receiver". -/
theorem entityContextDetached_evaluation :
    entityContextDetached
        ⟨some ⟨"snd", false⟩, some ⟨"stream", false⟩, some ⟨"batch", false⟩⟩ =
      [DetachCall.senderDetached "snd", DetachCall.receiverDetached "batch",
        DetachCall.receiverDetached "batch"] ∧
    DetachCall.receiverDetached "stream" ∉
      entityContextDetached
        ⟨some ⟨"snd", false⟩, some ⟨"stream", false⟩, some ⟨"batch", false⟩⟩ := by
  decide

/-- C1 counterexample: a second `settleMessage` call for delivery 1, which
already holds a pending record (the first call's record `⟨0, 0⟩`), is not
rejected, registers a fresh record `⟨1, 1⟩` instead of awaiting the
existing one, and issues a second transport disposition frame. -/
theorem settleMessage_second_call_counterexample :
    mapHas 1 (settleMessage initSettleState 1 "complete"
        ⟨none, none⟩).state.dispositionMap = true ∧
    (settleMessage (settleMessage initSettleState 1 "complete" ⟨none, none⟩).state
        1 "complete" ⟨none, none⟩).registered = some ⟨1, 1⟩ ∧
    (settleMessage initSettleState 1 "complete" ⟨none, none⟩).registered =
      some ⟨0, 0⟩ ∧
    (settleMessage (settleMessage initSettleState 1 "complete" ⟨none, none⟩).state
        1 "complete" ⟨none, none⟩).frames = [Frame.accept] := by
  decide

/-- C1 amended: the disposition map never holds two records for the same
delivery identifier (every operation on it preserves distinctness of its
keys); however, a second `settleMessage` call for a delivery that already
has a pending record is not rejected and does not await the existing
record: it registers a fresh record that replaces the pending one, issues
a second transport disposition frame, and leaves the replaced record's
timeout timer running. -/
theorem dispositionMap_unique_but_second_call_overwrites (s : SettleState)
    (deliveryId : Nat) (operation : String) (options : DispositionOptions)
    (oldRec : PendingRec) :
    (keysNodup s.dispositionMap →
      keysNodup (settleMessage s deliveryId operation options).state.dispositionMap ∧
      (∀ remoteSettled stateError,
        keysNodup (onSettled s deliveryId remoteSettled stateError).dispositionMap) ∧
      keysNodup (dispositionTimerFire s deliveryId oldRec).dispositionMap) ∧
    (recognizedOp operation = true →
      mapGet deliveryId s.dispositionMap = some oldRec →
      (settleMessage s deliveryId operation options).registered =
        some ⟨s.nextPromiseId, s.nextTimerId⟩ ∧
      mapGet deliveryId
          (settleMessage s deliveryId operation options).state.dispositionMap =
        some ⟨s.nextPromiseId, s.nextTimerId⟩ ∧
      (settleMessage s deliveryId operation options).frames =
        framesFor operation options ∧
      (framesFor operation options).length = 1 ∧
      (oldRec.timerId ∈ s.activeTimers →
        oldRec.timerId ∈
          (settleMessage s deliveryId operation options).state.activeTimers)) := by
  constructor
  · intro hnd
    refine ⟨?_, ?_, ?_⟩
    · by_cases hop : recognizedOp operation <;>
        simp [settleMessage, hop, keysNodup_mapSet, hnd]
    · intro remoteSettled stateError
      unfold onSettled
      by_cases hrs : remoteSettled
      · cases hg : mapGet deliveryId s.dispositionMap <;>
          simp [hrs, hg, keysNodup_mapDelete, hnd]
      · simp [hrs, hnd]
    · unfold dispositionTimerFire
      by_cases ht : oldRec.timerId ∈ s.activeTimers <;>
        simp [ht, keysNodup_mapDelete, hnd]
  · intro hop hold
    refine ⟨?_, ?_, ?_, ?_, ?_⟩
    · simp [settleMessage, hop]
    · simp [settleMessage, hop, mapGet_mapSet_self]
    · simp [settleMessage, hop]
    · rcases (by simpa [recognizedOp] using hop :
        ((operation = "complete" ∨ operation = "abandon") ∨
          operation = "defer") ∨ operation = "deadletter") with ((h | h) | h) | h <;>
        simp [framesFor, h]
    · intro hmem
      simp [settleMessage, hop, List.mem_append, hmem]

/-- Witness for C1's amended claim: the two-call scenario of the
counterexample, with hypotheses discharged concretely. -/
theorem dispositionMap_unique_but_second_call_overwrites_witness :
    keysNodup (settleMessage (settleMessage initSettleState 1 "complete"
        ⟨none, none⟩).state 1 "complete" ⟨none, none⟩).state.dispositionMap ∧
    mapGet 1 (settleMessage (settleMessage initSettleState 1 "complete"
        ⟨none, none⟩).state 1 "complete" ⟨none, none⟩).state.dispositionMap =
      some ⟨1, 1⟩ :=
  ⟨((dispositionMap_unique_but_second_call_overwrites
      (settleMessage initSettleState 1 "complete" ⟨none, none⟩).state
      1 "complete" ⟨none, none⟩ ⟨0, 0⟩).1 (by decide)).1,
   ((dispositionMap_unique_but_second_call_overwrites
      (settleMessage initSettleState 1 "complete" ⟨none, none⟩).state
      1 "complete" ⟨none, none⟩ ⟨0, 0⟩).2 (by decide) (by decide)).2.1⟩

/-- C3: for a `settleMessage` call with a recognized disposition kind
(starting from a state where delivery `deliveryId` has no pending record
and the next timer is fresh): if the settlement acknowledgement arrives
before the timeout, the caller's promise is settled once according to the
acknowledgement (`ackOutcome`: resolved without an error condition,
rejected with the translated error otherwise), the pending record is
removed and its timeout timer is cancelled, and the later timeout firing
is a no-op; if the timeout fires first, the promise is resolved once, the
record is removed, and a later acknowledgement is a no-op. In both
orderings the settlement log grows by exactly one entry for this promise. -/
theorem settlement_ack_or_timeout (s : SettleState) (deliveryId : Nat)
    (operation : String) (options : DispositionOptions)
    (stateError : Option AmqpErrorM)
    (hop : recognizedOp operation = true)
    (hfree : mapGet deliveryId s.dispositionMap = none)
    (htimer : s.nextTimerId ∉ s.activeTimers) :
    (settleMessage s deliveryId operation options).registered =
      some ⟨s.nextPromiseId, s.nextTimerId⟩ ∧
    ((onSettled (settleMessage s deliveryId operation options).state
        deliveryId true stateError).settledLog =
      s.settledLog ++ [(s.nextPromiseId, ackOutcome stateError)] ∧
     (onSettled (settleMessage s deliveryId operation options).state
        deliveryId true stateError).dispositionMap = s.dispositionMap ∧
     s.nextTimerId ∉ (onSettled (settleMessage s deliveryId operation options).state
        deliveryId true stateError).activeTimers ∧
     dispositionTimerFire (onSettled (settleMessage s deliveryId operation options).state
        deliveryId true stateError) deliveryId ⟨s.nextPromiseId, s.nextTimerId⟩ =
      onSettled (settleMessage s deliveryId operation options).state
        deliveryId true stateError) ∧
    ((dispositionTimerFire (settleMessage s deliveryId operation options).state
        deliveryId ⟨s.nextPromiseId, s.nextTimerId⟩).settledLog =
      s.settledLog ++ [(s.nextPromiseId, POutcome.resolved)] ∧
     (dispositionTimerFire
        (settleMessage s deliveryId operation options).state
        deliveryId ⟨s.nextPromiseId, s.nextTimerId⟩).dispositionMap =
       s.dispositionMap ∧
     onSettled (dispositionTimerFire (settleMessage s deliveryId operation options).state
        deliveryId ⟨s.nextPromiseId, s.nextTimerId⟩) deliveryId true stateError =
      dispositionTimerFire (settleMessage s deliveryId operation options).state
        deliveryId ⟨s.nextPromiseId, s.nextTimerId⟩) := by
  have herase : (s.activeTimers ++ [s.nextTimerId]).erase s.nextTimerId =
      s.activeTimers := by
    rw [List.erase_append_right _ htimer, List.erase_cons_head, List.append_nil]
  refine ⟨?_, ⟨?_, ?_, ?_, ?_⟩, ⟨?_, ?_, ?_⟩⟩
  · simp [settleMessage, hop]
  · simp [onSettled, settleMessage, hop, mapGet_mapSet_self]
  · simp [onSettled, settleMessage, hop, mapGet_mapSet_self,
      mapDelete_mapSet_of_absent _ _ _ hfree]
  · simp [onSettled, settleMessage, hop, mapGet_mapSet_self, herase, htimer]
  · simp [dispositionTimerFire, onSettled, settleMessage, hop, mapGet_mapSet_self,
      herase, htimer]
  · simp [dispositionTimerFire, settleMessage, hop]
  · simp [dispositionTimerFire, settleMessage, hop,
      mapDelete_mapSet_of_absent _ _ _ hfree]
  · simp [onSettled, dispositionTimerFire, settleMessage, hop, mapGet_mapDelete_self]

/-- Witness for C3: delivery 1 completed on the fresh receiver state, the
acknowledgement carrying an error condition. -/
theorem settlement_ack_or_timeout_witness :
    (settleMessage initSettleState 1 "complete" ⟨none, none⟩).registered =
      some ⟨0, 0⟩ ∧
    (onSettled (settleMessage initSettleState 1 "complete" ⟨none, none⟩).state
        1 true (some ⟨some "amqp:internal-error", none⟩)).settledLog =
      initSettleState.settledLog ++
        [(0, ackOutcome (some ⟨some "amqp:internal-error", none⟩))] :=
  ⟨(settlement_ack_or_timeout initSettleState 1 "complete" ⟨none, none⟩
      (some ⟨some "amqp:internal-error", none⟩)
      (by decide) (by decide) (by decide)).1,
   (settlement_ack_or_timeout initSettleState 1 "complete" ⟨none, none⟩
      (some ⟨some "amqp:internal-error", none⟩)
      (by decide) (by decide) (by decide)).2.1.1⟩

/-- C6 counterexample: a peek-lock receiver (defaults plus auto-complete)
whose handler throws a lock-lost error performs only the renewal
cancellation — in particular no action forwards the error to the
application error callback, contrary to the claim that the error is
forwarded. -/
theorem lock_lost_not_forwarded_counterexample :
    (mkReceiverConfig none (some true) none none).receiveMode =
      ReceiveMode.peekLock ∧
    afterHandlerActions (mkReceiverConfig none (some true) none none)
        (HandlerOutcome.failure lockLostErrorName) none =
      [MsgAction.cancelRenewal] ∧
    (afterHandlerActions (mkReceiverConfig none (some true) none none)
        (HandlerOutcome.failure lockLostErrorName) none).filter
      isErrorCallbackAction = [] := by
  decide

/-- C6 amended: for every message whose handler throws an error that
translates to the lock-lost condition while the receiver is in peek-lock
mode, zero settlement dispositions (no complete, no abandon) are issued
for that message, and the error is not forwarded to the application error
callback either — `_onAmqpMessage` swallows it after logging. -/
theorem lock_lost_no_settlement_no_forward (cfg : ReceiverConfig)
    (settleFailure : Option String)
    (_hmode : cfg.receiveMode = ReceiveMode.peekLock) :
    (afterHandlerActions cfg (HandlerOutcome.failure lockLostErrorName)
        settleFailure).filter isSettleAction = [] ∧
    (afterHandlerActions cfg (HandlerOutcome.failure lockLostErrorName)
        settleFailure).filter isErrorCallbackAction = [] := by
  cases har : cfg.autoRenewLock <;>
    simp [afterHandlerActions, har, isSettleAction, isErrorCallbackAction]

/-- Witness for C6's amended claim at the default peek-lock configuration. -/
theorem lock_lost_no_settlement_no_forward_witness :
    (afterHandlerActions (mkReceiverConfig none (some true) none none)
        (HandlerOutcome.failure lockLostErrorName) none).filter
      isSettleAction = [] ∧
    (afterHandlerActions (mkReceiverConfig none (some true) none none)
        (HandlerOutcome.failure lockLostErrorName) none).filter
      isErrorCallbackAction = [] :=
  lock_lost_no_settlement_no_forward (mkReceiverConfig none (some true) none none)
    none (by decide)

/-- Under `autoRenewLock`, the post-handler action list always begins with
the renewal cancellation. -/
theorem afterHandlerActions_cancel_head (cfg : ReceiverConfig)
    (har : cfg.autoRenewLock = true) (oc : HandlerOutcome)
    (sf : Option String) :
    ∃ t, afterHandlerActions cfg oc sf = MsgAction.cancelRenewal :: t := by
  cases oc with
  | success =>
    refine ⟨(afterHandlerActions cfg HandlerOutcome.success sf).tail, ?_⟩
    simp [afterHandlerActions, har]
  | failure errName =>
    refine ⟨(afterHandlerActions cfg (HandlerOutcome.failure errName) sf).tail, ?_⟩
    simp [afterHandlerActions, har]

/-- One event-loop step preserves the renewal invariant (handler done →
renewal stopped), assuming auto-renew is the active configuration. -/
theorem rstep_preserves_renewInv (cfg : ReceiverConfig)
    (har : cfg.autoRenewLock = true) (s : RenewState) (e : REvent)
    (h : renewInv s) : renewInv (rstep cfg s e).1 := by
  obtain ⟨ce, ts, rif, hd⟩ := s
  cases e with
  | timerFires =>
    revert h
    cases ce <;> cases ts <;> cases hd <;> simp [rstep, renewInv, har]
  | renewResult ok bd =>
    revert h
    cases ce <;> cases ts <;> cases rif <;> cases hd <;> cases ok <;> cases bd <;>
      simp [rstep, renewInv, har]
  | handlerCompletes oc sf =>
    revert h
    cases ce <;> cases ts <;> cases hd <;> simp [rstep, renewInv, har]

/-- From a quiescent post-handler state, every further event-loop step
stays quiescent and emits neither a `renewLock` invocation nor any
settlement action. -/
theorem rstep_done (cfg : ReceiverConfig) (s : RenewState) (e : REvent)
    (h : renewDone s) :
    renewDone (rstep cfg s e).1 ∧
    RenewAction.invokeRenewLock ∉ (rstep cfg s e).2 ∧
    ∀ a, isSettleAction a = true →
      RenewAction.handlerAction a ∉ (rstep cfg s e).2 := by
  obtain ⟨hd, hce, hts⟩ := h
  cases e with
  | timerFires => simp [rstep, hts, renewDone, hd, hce]
  | renewResult ok bd =>
    cases hr : s.renewInFlight <;> cases ok <;>
      simp [rstep, hr, renewDone, hd, hce, hts]
  | handlerCompletes oc sf => simp [rstep, hd, renewDone, hce, hts]

/-- From a quiescent post-handler state, a whole run of further events
emits neither a `renewLock` invocation nor any settlement action. -/
theorem runRenew_done (cfg : ReceiverConfig) (s : RenewState)
    (es : List REvent) (h : renewDone s) :
    RenewAction.invokeRenewLock ∉ (runRenew cfg s es).2 ∧
    ∀ a, isSettleAction a = true →
      RenewAction.handlerAction a ∉ (runRenew cfg s es).2 := by
  induction es generalizing s with
  | nil => simp [runRenew]
  | cons e rest ih =>
    have h1 := rstep_done cfg s e h
    have h2 := ih (rstep cfg s e).1 h1.1
    refine ⟨?_, ?_⟩
    · simp only [runRenew, List.mem_append]
      rintro (hc | hc)
      · exact h1.2.1 hc
      · exact h2.1 hc
    · intro a ha
      simp only [runRenew, List.mem_append]
      rintro (hc | hc)
      · exact h1.2.2 a ha hc
      · exact h2.2 a ha hc

/-- A whole run of event-loop steps preserves the renewal invariant. -/
theorem runRenew_preserves_renewInv (cfg : ReceiverConfig)
    (har : cfg.autoRenewLock = true) (s : RenewState) (es : List REvent)
    (h : renewInv s) : renewInv (runRenew cfg s es).1 := by
  induction es generalizing s with
  | nil => simpa [runRenew] using h
  | cons e rest ih =>
    have h1 := rstep_preserves_renewInv cfg har s e h
    simpa [runRenew] using ih (rstep cfg s e).1 h1

/-- The handler-completion step leaves the system quiescent. -/
theorem rstep_handlerCompletes_done (cfg : ReceiverConfig)
    (har : cfg.autoRenewLock = true) (s : RenewState) (oc : HandlerOutcome)
    (sf : Option String) (h : renewInv s) :
    renewDone (rstep cfg s (REvent.handlerCompletes oc sf)).1 := by
  by_cases hd : s.handlerDone
  · have hq := h hd
    simp only [rstep, hd, if_true]
    exact ⟨hd, hq.1, hq.2⟩
  · simp [rstep, hd, har, renewDone]

/-- The handler-completion step itself never invokes `renewLock`, and in
its emitted actions no settlement disposition precedes the renewal
cancellation. -/
theorem rstep_handlerCompletes_acts (cfg : ReceiverConfig)
    (har : cfg.autoRenewLock = true) (s : RenewState) (oc : HandlerOutcome)
    (sf : Option String) :
    RenewAction.invokeRenewLock ∉
      (rstep cfg s (REvent.handlerCompletes oc sf)).2 ∧
    settleBeforeCancel (rstep cfg s (REvent.handlerCompletes oc sf)).2 = false := by
  by_cases hd : s.handlerDone
  · simp [rstep, hd, settleBeforeCancel]
  · obtain ⟨t, ht⟩ := afterHandlerActions_cancel_head cfg har oc sf
    constructor
    · simp [rstep, hd]
    · simp [rstep, hd, ht, settleBeforeCancel]

/-- C4: with auto-renew active, in every event-loop trace the lock-renewal
task never fires after the message handler has completed: the
handler-completion step of `_onAmqpMessage` does not invoke `renewLock`
and cancels renewal before any settlement action in its own action
sequence, and no event processed after that step — renewal timers,
`renewLock` completions, duplicate completions — ever invokes `renewLock`
or issues a settlement action again. -/
theorem no_renewal_after_handler_completion (cfg : ReceiverConfig)
    (beforeDeadline : Bool) (pre post : List REvent)
    (outcome : HandlerOutcome) (settleFailure : Option String)
    (har : cfg.autoRenewLock = true) :
    RenewAction.invokeRenewLock ∉
      (rstep cfg (runRenew cfg (initRenewState cfg beforeDeadline) pre).1
        (REvent.handlerCompletes outcome settleFailure)).2 ∧
    settleBeforeCancel
      (rstep cfg (runRenew cfg (initRenewState cfg beforeDeadline) pre).1
        (REvent.handlerCompletes outcome settleFailure)).2 = false ∧
    RenewAction.invokeRenewLock ∉
      (runRenew cfg
        (rstep cfg (runRenew cfg (initRenewState cfg beforeDeadline) pre).1
          (REvent.handlerCompletes outcome settleFailure)).1 post).2 ∧
    ∀ a, isSettleAction a = true →
      RenewAction.handlerAction a ∉
        (runRenew cfg
          (rstep cfg (runRenew cfg (initRenewState cfg beforeDeadline) pre).1
            (REvent.handlerCompletes outcome settleFailure)).1 post).2 := by
  have hinv0 : renewInv (initRenewState cfg beforeDeadline) := by
    unfold renewInv initRenewState
    split <;> simp
  have hinv1 := runRenew_preserves_renewInv cfg har _ pre hinv0
  have hacts := rstep_handlerCompletes_acts cfg har
    (runRenew cfg (initRenewState cfg beforeDeadline) pre).1 outcome settleFailure
  have hdone := rstep_handlerCompletes_done cfg har
    (runRenew cfg (initRenewState cfg beforeDeadline) pre).1 outcome settleFailure hinv1
  have hpost := runRenew_done cfg _ post hdone
  exact ⟨hacts.1, hacts.2, hpost.1, hpost.2⟩

/-- Witness for C4 at the default configuration (peek-lock, auto-renew
active), with a renewal round before the handler completes and a stray
timer event after it. -/
theorem no_renewal_after_handler_completion_witness :
    RenewAction.invokeRenewLock ∉
      (runRenew (mkReceiverConfig none none none none)
        (rstep (mkReceiverConfig none none none none)
          (runRenew (mkReceiverConfig none none none none)
            (initRenewState (mkReceiverConfig none none none none) true)
            [REvent.timerFires, REvent.renewResult true true]).1
          (REvent.handlerCompletes HandlerOutcome.success none)).1
        [REvent.timerFires]).2 :=
  (no_renewal_after_handler_completion (mkReceiverConfig none none none none) true
    [REvent.timerFires, REvent.renewResult true true] [REvent.timerFires]
    HandlerOutcome.success none (by decide)).2.2.1

/-- If every attempt fails with a retryable error, the Retry Orchestrator
exhausts its attempt budget and returns the error of the last attempt. -/
theorem retryRun_exhausts (op : Nat → Option SBError) (errs : Nat → SBError)
    (hop : ∀ i, op i = some (errs i)) (hret : ∀ i, (errs i).retryable = true) :
    ∀ m a, retryRun op a (m + 1) = Except.error (errs (a + m)) := by
  intro m
  induction m with
  | zero =>
    intro a
    simp [retryRun, hop a]
  | succ m ih =>
    intro a
    rw [show m + 1 + 1 = Nat.succ (m + 1) from rfl]
    rw [retryRun]
    simp only [hop a]
    rw [if_pos ⟨hret a, Nat.succ_ne_zero m⟩, ih (a + 1)]
    congr 2
    omega

/-- C8: when the detach protocol decides to reopen the receiver link, the
receiver options are built with `newName: true`, so the link name used
for re-establishment is the freshly generated one; establishment is
retried through the retry mechanism with the fixed 15-second delay and
the bounded `defaultConnectionRetryAttempts` attempt count; and if every
attempt fails with a retryable error the attempt budget is exhausted and
the last attempt's error is surfaced. -/
theorem detached_reopen_new_name_bounded_retry (cfg : ReceiverConfig)
    (currentName address freshName : String)
    (op : Nat → Option SBError) (errs : Nat → SBError) (m : Nat)
    (hop : ∀ i, op i = some (errs i)) (hret : ∀ i, (errs i).retryable = true) :
    (detachedReopenOptions cfg currentName address freshName).name = freshName ∧
    detachedRetryConfig.times = defaultConnectionRetryAttempts ∧
    detachedRetryConfig.delayInSeconds = 15 ∧
    retryRun op 0 (m + 1) = Except.error (errs m) := by
  refine ⟨rfl, rfl, rfl, ?_⟩
  simpa using retryRun_exhausts op errs hop hret m 0

/-- Witness for C8: a reopen with a concrete fresh link name, and a
three-attempt retry in which every attempt fails with the same retryable
error. -/
theorem detached_reopen_new_name_bounded_retry_witness :
    (detachedReopenOptions (mkReceiverConfig none none none none)
        "old-link" "addr" "fresh-link").name = "fresh-link" ∧
    retryRun (fun _ => some ⟨"ServiceUnavailableError", true⟩) 0 3 =
      Except.error ⟨"ServiceUnavailableError", true⟩ :=
  have h := detached_reopen_new_name_bounded_retry
    (mkReceiverConfig none none none none) "old-link" "addr" "fresh-link"
    (fun _ => some ⟨"ServiceUnavailableError", true⟩)
    (fun _ => ⟨"ServiceUnavailableError", true⟩) 2
    (fun _ => rfl) (fun _ => rfl)
  ⟨h.1, h.2.2.2⟩
